import Mathlib

/-!
Verification of the sidecar supervisor in apps/desktop/src-tauri/src/lib.rs.

Shallow embedding conventions:
- A worker handle (tauri CommandChild) is opaque; we model it as a natural number.
- The registry (SidecarState, a Mutex over Option<CommandChild>) is an
  explicit value of type Option Handle threaded through each operation.
  The mutex is modelled as uncontended and unpoisoned, since we embed one
  sequential execution trace of each command.
- A health-probe attempt (client.get(endpoint).send().await) is modelled by
  its observable outcome: either the send returned Err (transport error or
  per-attempt timeout expiry) or it returned a response with an HTTP status.
- Environment-dependent calls (the git subprocess, the HOME variable, the
  sidecar spawn, the reqwest client build, process kill) are parameters of
  the embedded functions, so each operation is a pure function of the
  registry state plus the outcomes of its external calls.
-/

/-- Outcome of one health-probe attempt: the send either fails (transport
error, connection refused, or per-attempt timeout expiry) or yields a
response with an HTTP status code. -/
inductive ProbeOutcome where
  | err
  | resp (status : Nat)
  deriving DecidableEq, Repr

/-- Rust http StatusCode.is_success: status in 200..=299. -/
def isSuccessStatus (s : Nat) : Bool := 200 ≤ s && s < 300

/-- The loop condition in the source: the send succeeded and the status is a
success status. -/
def probeReady : ProbeOutcome → Bool
  | .err => false
  | .resp s => isSuccessStatus s

/-- Opaque worker handle (CommandChild). -/
abbrev Handle := Nat

/-- Observable result of running the git rev-parse subprocess: the status
reported success or not, and the raw stdout. -/
structure GitOutput where
  success : Bool
  stdout : String
  deriving DecidableEq, Repr

/-- Working context of resolve_db_path: the outcome of the git subprocess
(none when spawning the command itself failed) and the HOME variable. -/
structure Env where
  gitOutput : Option GitOutput
  home : Option String
  deriving DecidableEq, Repr

/-- Embeds Rust str::trim as used on the git stdout: drop whitespace
characters from both ends of the string (structural recursion over the
character list, so concrete instances evaluate). -/
def rustTrim (s : String) : String :=
  ⟨((s.data.dropWhile Char.isWhitespace).reverse.dropWhile Char.isWhitespace).reverse⟩

/-- Embeds resolve_db_path (lib.rs lines 13 to 29): if the git command ran,
its status was success, and its trimmed stdout is nonempty, return
repoRoot/.caw/workflows.db; otherwise fall back to HOME (or /tmp when HOME
is unset) /.caw/workflows.db. -/
def resolve_db_path (env : Env) : String :=
  let fallback := (env.home.getD "/tmp") ++ "/.caw/workflows.db"
  match env.gitOutput with
  | some out =>
    if out.success then
      let repo_root := rustTrim out.stdout
      if repo_root ≠ "" then repo_root ++ "/.caw/workflows.db" else fallback
    else fallback
  | none => fallback

/-- Whether the working context provides a repository root, in the sense of
the early-return condition of resolve_db_path: the git command ran, its
status was success, and its trimmed stdout is nonempty. -/
def hasRepoRoot (env : Env) : Bool :=
  match env.gitOutput with
  | some out => out.success && !(rustTrim out.stdout == "")
  | none => false

/-- The argument list passed to the sidecar in restart_server (line 114) and
in run (line 165), given the resolved db path. -/
def serverArgs (db_path : String) : List String :=
  ["--server", "--transport", "http", "--port", "3100", "--db", db_path]

/-- Relevant configuration of a reqwest client: whether a total per-request
timeout was set, in milliseconds. -/
structure ClientConfig where
  timeoutMs : Option Nat
  deriving DecidableEq, Repr

/-- Client built in server_status (lines 83 to 86): timeout of 2 seconds. -/
def statusClient : ClientConfig := { timeoutMs := some 2000 }

/-- Client built in restart_server (lines 124 to 127): timeout of 2 seconds. -/
def restartClient : ClientConfig := { timeoutMs := some 2000 }

/-- Client built in the background readiness loop of run (line 188) as
reqwest Client new(), whose default sets no total request timeout. -/
def startPollClient : ClientConfig := { timeoutMs := none }

/-- Embeds server_status (lines 82 to 94). Parameters: the outcome of the
client build (an Err there is mapped to the error string and propagated)
and the outcome of the single probe. Returns the running field of the JSON
value. -/
def server_status (build : Except String Unit) (p : ProbeOutcome) :
    Except String Bool :=
  match build with
  | .error e => .error e
  | .ok _ =>
    match p with
    | .resp s => if isSuccessStatus s then .ok true else .ok false
    | .err => .ok false

/-- Observable action performed by a supervisor operation, in order. -/
inductive Act where
  | takeHandle (prev : Option Handle)
  | kill (h : Handle)
  | sleep (ms : Nat)
  | resolveDb (path : String)
  | spawnWorker (args : List String)
  | putHandle (h : Handle)
  | probe (i : Nat)
  deriving DecidableEq, Repr

/-- Embeds the shared shape of the two health-poll loops (restart_server
lines 129 to 136 and run lines 189 to 197): up to bound attempts, probe;
on the first success return ready; otherwise sleep 500 ms and continue.
Returns whether ready was observed, the number of probe attempts performed,
and the trace of actions. -/
def pollHealth : Nat → (Nat → ProbeOutcome) → Nat → Bool × Nat × List Act
  | 0, _, _ => (false, 0, [])
  | b + 1, probe, i =>
    if probeReady (probe i) then (true, 1, [Act.probe i])
    else
      let rest := pollHealth b probe (i + 1)
      (rest.1, rest.2.1 + 1, Act.probe i :: Act.sleep 500 :: rest.2.2)

/-- Attempt bound of the restart_server poll loop (line 129). -/
def restartAttemptBound : Nat := 30

/-- Attempt bound of the background poll loop in run (line 189). -/
def startAttemptBound : Nat := 60

/-- Embeds the background readiness poll spawned in run (lines 187 to 199):
60 attempts, 500 ms apart; reports ready on the first success, else a
timeout warning after the bound. -/
def run_background_poll (probe : Nat → ProbeOutcome) : Bool × Nat × List Act :=
  pollHealth startAttemptBound probe 0

/-- Failure of the spawn step of restart_server: either the sidecar lookup
failed (line 112, error string propagated as is) or the spawn itself failed
(line 116, error string prefixed). -/
inductive SpawnErr where
  | sidecar (e : String)
  | spawn (e : String)
  deriving DecidableEq, Repr

/-- The error string restart_server returns for each spawn-step failure. -/
def spawnErrMsg : SpawnErr → String
  | .sidecar e => e
  | .spawn e => "Failed to spawn sidecar: " ++ e

/-- Embeds restart_server (lines 97 to 139). Parameters: the registry
content on entry, the environment for resolve_db_path, the outcome of the
sidecar lookup and spawn, the outcome of the reqwest client build, and the
outcome of each probe attempt. Returns the registry content on return, the
command result (ok true stands for the success JSON), and the action trace. -/
def restart_server (reg : Option Handle) (env : Env)
    (spawnRes : Except SpawnErr Handle) (build : Except String Unit)
    (probe : Nat → ProbeOutcome) :
    Option Handle × Except String Bool × List Act :=
  let killActs : List Act :=
    match reg with
    | some child => [Act.kill child]
    | none => []
  let db_path := resolve_db_path env
  let pre : List Act :=
    Act.takeHandle reg :: killActs ++ [Act.sleep 200, Act.resolveDb db_path]
  match spawnRes with
  | .error e => (none, .error (spawnErrMsg e), pre)
  | .ok child =>
    let acts := pre ++ [Act.spawnWorker (serverArgs db_path), Act.putHandle child]
    match build with
    | .error e => (some child, .error e, acts)
    | .ok _ =>
      let poll := pollHealth restartAttemptBound probe 0
      (some child,
       if poll.1 then .ok true
       else .error "Server did not become healthy within 15 seconds",
       acts ++ poll.2.2)

/-- Embeds stop_server (lines 141 to 149). Parameter kill gives the outcome
of CommandChild.kill for the taken handle. Returns the registry content on
return and the command result (ok true stands for the success JSON). Note
the source propagates a kill failure with the ? operator after mapping it
to a prefixed message. -/
def stop_server (reg : Option Handle) (kill : Handle → Except String Unit) :
    Option Handle × Except String Bool :=
  match reg with
  | none => (none, .ok true)
  | some child =>
    match kill child with
    | .ok _ => (none, .ok true)
    | .error e => (none, .error ("Failed to kill sidecar: " ++ e))

/-- Whether an action is a probe attempt. -/
def isProbeAct : Act → Bool
  | .probe _ => true
  | _ => false

/-- Whether an action is a kill of a worker handle. -/
def isKillAct : Act → Bool
  | .kill _ => true
  | _ => false

/-- Number of probe actions in a trace. -/
def countProbes (acts : List Act) : Nat :=
  acts.countP isProbeAct

/-- Whether a trace contains a kill action. -/
def hasKill (acts : List Act) : Bool :=
  acts.any isKillAct

/-- The trace a health-poll loop produces when no attempt ever succeeds: b
probe attempts starting at index i, each followed by the 500 ms
inter-attempt delay. -/
def notReadyTrace : Nat → Nat → List Act
  | 0, _ => []
  | b + 1, i => Act.probe i :: Act.sleep 500 :: notReadyTrace b (i + 1)

theorem pollHealth_notReady (probe : Nat → ProbeOutcome)
    (hp : ∀ j, probeReady (probe j) = false) :
    ∀ b i, pollHealth b probe i = (false, b, notReadyTrace b i) := by
  intro b
  induction b with
  | zero => intro i; rfl
  | succ b ih =>
    intro i
    simp [pollHealth, hp i, notReadyTrace, ih (i + 1)]

theorem pollHealth_firstReady (probe : Nat → ProbeOutcome) :
    ∀ b i k, k < b → (∀ j, j < k → probeReady (probe (i + j)) = false) →
      probeReady (probe (i + k)) = true →
      (pollHealth b probe i).1 = true ∧ (pollHealth b probe i).2.1 = k + 1 := by
  intro b
  induction b with
  | zero => intro i k hk _ _; exact absurd hk (Nat.not_lt_zero k)
  | succ b ih =>
    intro i k hk hbefore hready
    cases k with
    | zero =>
      have h : probeReady (probe i) = true := by simpa using hready
      simp [pollHealth, h]
    | succ k =>
      have h0 : probeReady (probe i) = false := by
        simpa using hbefore 0 (Nat.succ_pos k)
      have hrec := ih (i + 1) k (Nat.lt_of_succ_lt_succ hk)
        (fun j hj => by
          have h := hbefore (j + 1) (Nat.succ_lt_succ hj)
          have heq : i + 1 + j = i + (j + 1) := by omega
          rw [heq]; exact h)
        (by
          have heq : i + 1 + k = i + (k + 1) := by omega
          rw [heq]; exact hready)
      refine ⟨?_, ?_⟩
      · simp [pollHealth, h0, hrec.1]
      · simp [pollHealth, h0, hrec.2]

theorem pollHealth_no_kill (probe : Nat → ProbeOutcome) :
    ∀ b i, ((pollHealth b probe i).2.2).any isKillAct = false := by
  intro b
  induction b with
  | zero => intro i; rfl
  | succ b ih =>
    intro i
    by_cases h : probeReady (probe i) = true
    · simp [pollHealth, h, isKillAct]
    · have h' : probeReady (probe i) = false := by
        cases hb : probeReady (probe i)
        · rfl
        · exact absurd hb h
      simp [pollHealth, h', isKillAct, ih (i + 1)]

/-- C1 counterexample: the claim says stop reports success unconditionally,
even when termination of the taken handle fails; but stop_server propagates
a kill failure as an error (the ? operator on line 146), so on a registry
holding handle 0 whose kill fails, stop returns an error, not success. -/
theorem C1_counterexample :
    (stop_server (some 0) (fun _ => Except.error "boom")).2 =
      Except.error ("Failed to kill sidecar: " ++ "boom") ∧
    (stop_server (some 0) (fun _ => Except.error "boom")).2 ≠ Except.ok true := by
  refine ⟨rfl, ?_⟩
  simp [stop_server]

/-- C1 amended: stop takes the handle (registry is left empty in every
case), succeeds when the registry was empty, succeeds when termination of
the taken handle succeeds, but returns a prefixed error when termination
fails; a second consecutive stop always succeeds because the handle was
already removed. -/
theorem C1_stop_amended (reg : Option Handle) (kill : Handle → Except String Unit) :
    (stop_server reg kill).1 = none ∧
    (reg = none → (stop_server reg kill).2 = Except.ok true) ∧
    (∀ c, reg = some c → kill c = Except.ok () →
      (stop_server reg kill).2 = Except.ok true) ∧
    (∀ c e, reg = some c → kill c = Except.error e →
      (stop_server reg kill).2 = Except.error ("Failed to kill sidecar: " ++ e)) ∧
    (stop_server (stop_server reg kill).1 kill).2 = Except.ok true := by
  have hreg1 : (stop_server reg kill).1 = none := by
    cases reg with
    | none => rfl
    | some c => cases hk : kill c <;> simp [stop_server, hk]
  refine ⟨hreg1, ?_, ?_, ?_, ?_⟩
  · intro h
    subst h
    rfl
  · intro c hc hk
    subst hc
    simp [stop_server, hk]
  · intro c e hc hk
    subst hc
    simp [stop_server, hk]
  · rw [hreg1]
    rfl

/-- C1 witness: concrete registry with handle 2 and a succeeding kill: the
first stop succeeds, and the second stop on the resulting registry
succeeds. -/
theorem C1_witness :
    (stop_server (some 2) (fun _ => Except.ok ())).2 = Except.ok true ∧
    (stop_server (stop_server (some 2) (fun _ => Except.ok ())).1
      (fun _ => Except.ok ())).2 = Except.ok true :=
  ⟨(C1_stop_amended (some 2) (fun _ => Except.ok ())).2.2.1 2 rfl rfl,
   (C1_stop_amended (some 2) (fun _ => Except.ok ())).2.2.2.2⟩

/-- C2: when every probe attempt of the restart poll fails, restart_server
returns the timeout error while the registry still holds the newly spawned
handle (no rollback). -/
theorem C2_restart_timeout_keeps_handle (reg : Option Handle) (env : Env)
    (h : Handle) (probe : Nat → ProbeOutcome)
    (hp : ∀ j, probeReady (probe j) = false) :
    (restart_server reg env (Except.ok h) (Except.ok ()) probe).1 = some h ∧
    (restart_server reg env (Except.ok h) (Except.ok ()) probe).2.1 =
      Except.error "Server did not become healthy within 15 seconds" := by
  have hpoll := pollHealth_notReady probe hp restartAttemptBound 0
  constructor
  · cases reg <;> simp [restart_server]
  · cases reg <;> simp [restart_server, hpoll]

/-- C2 witness: empty registry, handle 5, probes that always fail: the
result is the timeout error and the registry holds handle 5. -/
theorem C2_witness :
    (restart_server none ⟨none, none⟩ (Except.ok 5) (Except.ok ())
        (fun _ => ProbeOutcome.err)).1 = some 5 ∧
    (restart_server none ⟨none, none⟩ (Except.ok 5) (Except.ok ())
        (fun _ => ProbeOutcome.err)).2.1 =
      Except.error "Server did not become healthy within 15 seconds" :=
  C2_restart_timeout_keeps_handle none ⟨none, none⟩ 5
    (fun _ => ProbeOutcome.err) (fun _ => rfl)

/-- C3: restart_server performs, in order: take the current handle; kill it
when one was present; sleep the 200 ms settle delay; resolve the storage
path afresh; spawn with the freshly resolved arguments; put the new
handle; then poll with the restart bound of 30 attempts, which is smaller
than the start bound of 60. -/
theorem C3_restart_sequence (reg : Option Handle) (env : Env) (h : Handle)
    (probe : Nat → ProbeOutcome) :
    restart_server reg env (Except.ok h) (Except.ok ()) probe =
      (some h,
       (if (pollHealth restartAttemptBound probe 0).1 then Except.ok true
        else Except.error "Server did not become healthy within 15 seconds"),
       Act.takeHandle reg ::
         (match reg with | some c => [Act.kill c] | none => []) ++
         [Act.sleep 200, Act.resolveDb (resolve_db_path env),
          Act.spawnWorker (serverArgs (resolve_db_path env)), Act.putHandle h] ++
         (pollHealth restartAttemptBound probe 0).2.2) ∧
    restartAttemptBound = 30 ∧ startAttemptBound = 60 ∧
    restartAttemptBound < startAttemptBound := by
  refine ⟨?_, rfl, rfl, by decide⟩
  cases reg <;> simp [restart_server]

/-- C4 counterexample: the claim says every probe attempt, including those
of the background poll loop in run, is bounded by a fixed per-attempt
timeout; but that loop builds its client with reqwest Client new() (line
188), which configures no request timeout at all. -/
theorem C4_counterexample : ¬ ∃ t, startPollClient.timeoutMs = some t := by
  intro ht
  obtain ⟨t, ht⟩ := ht
  simp [startPollClient] at ht

/-- C4 amended: the probes of server_status and of the restart_server poll
loop are bounded by a fixed 2 second per-attempt timeout, but the client of
the background poll loop in run has no per-attempt timeout configured. -/
theorem C4_per_attempt_timeouts :
    statusClient.timeoutMs = some 2000 ∧ restartClient.timeoutMs = some 2000 ∧
    startPollClient.timeoutMs = none :=
  ⟨rfl, rfl, rfl⟩

/-- C5 counterexample: the claim says a restart on an empty registry polls
readiness exactly as in start; but on probes that never succeed the restart
poll performs 30 attempts while the start background poll performs 60. -/
theorem C5_counterexample :
    countProbes (restart_server none ⟨none, none⟩ (Except.ok 0) (Except.ok ())
        (fun _ => ProbeOutcome.err)).2.2 = 30 ∧
    countProbes (run_background_poll (fun _ => ProbeOutcome.err)).2.2 = 60 ∧
    (30 : Nat) ≠ 60 := by
  refine ⟨by decide, by decide, by decide⟩

/-- C5 amended: on an empty registry, restart_server takes nothing, kills
nothing, spawns a new worker and polls it with the same probe-then-500 ms
loop as the start background poll, but with the restart bound of 30
attempts instead of the start bound of 60. -/
theorem C5_restart_empty_registry (env : Env) (h : Handle)
    (probe : Nat → ProbeOutcome) :
    (restart_server none env (Except.ok h) (Except.ok ()) probe).2.2 =
      Act.takeHandle none ::
        [Act.sleep 200, Act.resolveDb (resolve_db_path env),
         Act.spawnWorker (serverArgs (resolve_db_path env)), Act.putHandle h] ++
        (pollHealth restartAttemptBound probe 0).2.2 ∧
    hasKill (restart_server none env (Except.ok h) (Except.ok ()) probe).2.2 = false ∧
    run_background_poll probe = pollHealth startAttemptBound probe 0 ∧
    restartAttemptBound = 30 ∧ startAttemptBound = 60 := by
  refine ⟨by simp [restart_server], ?_, rfl, rfl, rfl⟩
  simp [restart_server, hasKill, isKillAct, pollHealth_no_kill probe]

/-- C6: storage-path resolution is deterministic in the working context:
with a repository root present (git succeeded with nonempty trimmed stdout
R) it yields R/.caw/workflows.db, and with no repository root and HOME set
to u it yields u/.caw/workflows.db. -/
theorem C6_resolve_db_path_cases (env : Env) :
    (∀ out, env.gitOutput = some out → out.success = true → rustTrim out.stdout ≠ "" →
      resolve_db_path env = rustTrim out.stdout ++ "/.caw/workflows.db") ∧
    (∀ u, hasRepoRoot env = false → env.home = some u →
      resolve_db_path env = u ++ "/.caw/workflows.db") := by
  constructor
  · intro out hout hsucc htrim
    simp [resolve_db_path, hout, hsucc, htrim]
  · intro u hroot hhome
    cases hg : env.gitOutput with
    | none => simp [resolve_db_path, hg, hhome]
    | some out =>
      cases hs : out.success with
      | false => simp [resolve_db_path, hg, hhome, hs]
      | true =>
        have htrim : rustTrim out.stdout = "" := by
          simp [hasRepoRoot, hg, hs] at hroot
          exact hroot
        simp [resolve_db_path, hg, hhome, hs, htrim]

/-- C6 witness: with git reporting root /repo the path is
/repo/.caw/workflows.db; with no git output and HOME=/home/u the path is
/home/u/.caw/workflows.db. -/
theorem C6_witness :
    resolve_db_path ⟨some ⟨true, "/repo"⟩, some "/home/u"⟩ =
      "/repo/.caw/workflows.db" ∧
    resolve_db_path ⟨none, some "/home/u"⟩ = "/home/u/.caw/workflows.db" := by
  constructor
  · have h := (C6_resolve_db_path_cases ⟨some ⟨true, "/repo"⟩, some "/home/u"⟩).1
      ⟨true, "/repo"⟩ rfl rfl (by decide)
    rw [show (rustTrim "/repo") = "/repo" from by decide] at h
    exact h
  · exact (C6_resolve_db_path_cases ⟨none, some "/home/u"⟩).2 "/home/u" rfl rfl

/-- C7: server_status returns Ok for every outcome of its single probe
(given the client built), with running true exactly when the send completed
with an HTTP success status; transport errors and timeout expiries (both
observed as a failed send) yield Ok with running false, never an error. -/
theorem C7_server_status (p : ProbeOutcome) :
    server_status (Except.ok ()) p = Except.ok (probeReady p) ∧
    (probeReady p = true ↔ ∃ s, p = ProbeOutcome.resp s ∧ isSuccessStatus s = true) := by
  constructor
  · cases p with
    | err => rfl
    | resp s => cases hs : isSuccessStatus s <;> simp [server_status, probeReady, hs]
  · cases p with
    | err => simp [probeReady]
    | resp s => simp [probeReady]

/-- C8: the background readiness poll of run is bounded: on probes that
never succeed it performs exactly the 60 configured attempts, 500 ms
apart, and reports the timeout condition (ready false); on a first success
at attempt k it reports ready and performs exactly k plus 1 attempts, none
further. -/
theorem C8_start_poll_bounded (probe : Nat → ProbeOutcome) :
    ((∀ j, probeReady (probe j) = false) →
      run_background_poll probe = (false, 60, notReadyTrace 60 0)) ∧
    (∀ k, k < 60 → (∀ j, j < k → probeReady (probe j) = false) →
      probeReady (probe k) = true →
      (run_background_poll probe).1 = true ∧
      (run_background_poll probe).2.1 = k + 1) := by
  constructor
  · intro hp
    exact pollHealth_notReady probe hp 60 0
  · intro k hk hbefore hready
    have h := pollHealth_firstReady probe 60 0 k hk
      (fun j hj => by simpa using hbefore j hj) (by simpa using hready)
    exact h

/-- C8 witness: probes that always fail give exactly 60 attempts and the
timeout report; a probe ready on the first attempt gives ready after one
attempt. -/
theorem C8_witness :
    run_background_poll (fun _ => ProbeOutcome.err) =
      (false, 60, notReadyTrace 60 0) ∧
    ((run_background_poll (fun _ => ProbeOutcome.resp 200)).1 = true ∧
     (run_background_poll (fun _ => ProbeOutcome.resp 200)).2.1 = 0 + 1) := by
  constructor
  · exact (C8_start_poll_bounded (fun _ => ProbeOutcome.err)).1 (fun _ => rfl)
  · exact (C8_start_poll_bounded (fun _ => ProbeOutcome.resp 200)).2 0 (by decide)
      (fun j hj => absurd hj (Nat.not_lt_zero j)) (by decide)

/-- C9: when the spawn step fails after a live handle was taken and killed,
restart_server returns the spawn error with the registry left empty: the
previous worker is not restored and no new handle is registered. -/
theorem C9_restart_spawn_failure (c : Handle) (env : Env) (se : SpawnErr)
    (build : Except String Unit) (probe : Nat → ProbeOutcome) :
    restart_server (some c) env (Except.error se) build probe =
      (none, Except.error (spawnErrMsg se),
       [Act.takeHandle (some c), Act.kill c, Act.sleep 200,
        Act.resolveDb (resolve_db_path env)]) := by
  rfl

/-- C10: with no repository root available and HOME unset, resolve_db_path
falls back to /tmp/.caw/workflows.db rather than failing. -/
theorem C10_resolve_db_path_tmp (env : Env)
    (hroot : hasRepoRoot env = false) (hh : env.home = none) :
    resolve_db_path env = "/tmp/.caw/workflows.db" := by
  cases hg : env.gitOutput with
  | none => simp [resolve_db_path, hg, hh]
  | some out =>
    cases hs : out.success with
    | false => simp [resolve_db_path, hg, hh, hs]
    | true =>
      have htrim : rustTrim out.stdout = "" := by
        simp [hasRepoRoot, hg, hs] at hroot
        exact hroot
      simp [resolve_db_path, hg, hh, hs, htrim]

/-- C10 witness: git spawn failed and HOME unset. -/
theorem C10_witness :
    resolve_db_path ⟨none, none⟩ = "/tmp/.caw/workflows.db" :=
  C10_resolve_db_path_tmp ⟨none, none⟩ rfl rfl
